import Mathlib

/-!
Shallow embedding of the content publishing lifecycle of the
stateofw/socialmedia repository, and proofs about the claims of its
natural-language specification.

The embedding follows the source files:
  app/models/content.py, app/models/client.py   (data model)
  app/tasks/posting_tasks.py  (_publish_content fan-out)
  app/api/routes/approval.py  (approve_content, publish_approved_content,
                               regenerate_rejected_content)
  app/api/routes/intake.py    (submit_intake_form_with_token,
                               generate_and_process_content)
  app/tasks/content_tasks.py  (_generate_content)
  app/tasks/recycling_tasks.py (find_recyclable_content)
External services (social platforms, Publer, the AI generator, Placid) are
modelled as oracle parameters; database commits are modelled by threading the
updated records through pure functions.
-/

namespace SocialMedia

/-- Statuses of app/models/content.py ContentStatus. -/
inductive ContentStatus where
  | draft
  | pendingApproval
  | approved
  | rejected
  | retrying
  | scheduled
  | published
  | failed
  deriving DecidableEq, Repr

/-- The fields of app/models/content.py Content that the lifecycle logic
reads or writes.  Timestamps are integers, JSON maps are association lists. -/
structure Content where
  clientId : Nat
  topic : String
  notes : Option String
  caption : Option String
  hashtags : List String
  cta : Option String
  platformCaptions : List (String × String)
  mediaUrls : List String
  platforms : List String
  platformPostIds : List (String × String)
  scheduledAt : Option Int
  publishedAt : Option Int
  status : ContentStatus
  errorMessage : Option String
  retryCount : Nat
  rejectionReason : Option String
  deriving DecidableEq, Repr

/-- The fields of app/models/client.py Client that the lifecycle logic uses. -/
structure Client where
  id : Nat
  businessName : String
  monthlyPostLimit : Nat
  postsThisMonth : Nat
  autoPost : Bool
  isActive : Bool
  platformsEnabled : List String
  publerAccountIds : List String
  deriving DecidableEq, Repr

/-- One row of app/models/platform_config.py PlatformConfig, as read by the
fan-out (the query keeps only rows with is_active = True). -/
structure PlatformConfig where
  platform : String
  isActive : Bool
  deriving DecidableEq, Repr

/-- Settings.MAX_RETRY_ATTEMPTS from app/core/config.py. -/
def MAX_RETRY_ATTEMPTS : Nat := 3

/-- Settings.RETRY_DELAY_SECONDS from app/core/config.py. -/
def RETRY_DELAY_SECONDS : Nat := 15

/-- Python truthiness of an optional string: None and the empty string are
falsy, as in the source expression given by value or default. -/
def pyOrElse : Option String → String → String
  | some s, d => if s = "" then d else s
  | none, d => d

/-- Rendering of an optional string inside a Python f-string. -/
def pyStr : Option String → String
  | some s => s
  | none => "None"

/-! ## PublishFanOut: app/tasks/posting_tasks.py, _publish_content -/

/-- The validation error recorded for instagram when no media is available
(posting_tasks.py line 112). -/
def instagramMediaError : String :=
  "instagram: Instagram posts require at least one image or video"

/-- The platforms that have a publish branch in the fan-out loop
(posting_tasks.py lines 99-143). -/
def supportedPlatforms : List String :=
  ["facebook", "instagram", "google_business", "linkedin"]

/-- The fallback caption of posting_tasks.py lines 89-91: base caption with
CTA and, for instagram and linkedin, the hashtags. -/
def fallbackCaption (c : Content) (p : String) : String :=
  let base := pyStr c.caption ++ "\n\n" ++ pyStr c.cta
  if p = "instagram" ∨ p = "linkedin" then
    base ++ "\n\n" ++ String.intercalate " " c.hashtags
  else base

/-- Caption resolution of posting_tasks.py lines 86-91: the platform-specific
caption when present and non-empty, else the fallback. -/
def resolveCaption (c : Content) (p : String) : String :=
  let v := if c.platformCaptions.isEmpty then none else c.platformCaptions.lookup p
  match v with
  | some t => if t = "" then fallbackCaption c p else t
  | none => fallbackCaption c p

/-- The media list used for publishing after the optional Placid step
(posting_tasks.py lines 60-73): when media exists and Placid returned a
truthy URL it replaces the list, otherwise the original list is kept; with
no media the Placid step is skipped. -/
def finalMediaUrls (placidResult : Option String) (mediaUrls : List String) : List String :=
  match mediaUrls with
  | [] => []
  | _ :: _ =>
    match placidResult with
    | some u => if u = "" then mediaUrls else [u]
    | none => mediaUrls

/-- Mutable loop state of the fan-out: the post_ids dict, the errors list and
content.retry_count as committed during the loop. -/
structure FanState where
  postIds : List (String × String)
  errors : List String
  retryCount : Nat
  deriving DecidableEq, Repr

/-- The retry loop of posting_tasks.py lines 97-161 for one platform, run on
the list of remaining attempt numbers.  The oracle maps a platform and an
attempt number to the external call's outcome.  Returns the post id on
success, the recorded error string when the final attempt failed, and the
value of content.retry_count after the loop (set to the attempt number at
every exception). -/
def platformAttempts (call : String → Nat → Except String String) (p : String) (m : Nat) :
    List Nat → Nat → Option String × Option String × Nat
  | [], rc => (none, none, rc)
  | a :: rest, rc =>
    match call p a with
    | Except.ok postId => (some postId, none, rc)
    | Except.error e =>
      if a < m then platformAttempts call p m rest a
      else (none, some (p ++ ": " ++ e), a)

/-- The body of the per-platform-config loop of posting_tasks.py lines 79-181:
skip platforms not targeted by the content; for instagram with no media record
the validation error and stop without any external call; otherwise run the
retry loop; platforms without a publish branch fall through with no effect. -/
def processConfig (call : String → Nat → Except String String) (finalMedia : List String)
    (platforms : List String) (m : Nat) (st : FanState) (cfg : PlatformConfig) : FanState :=
  let p := cfg.platform
  if p ∉ platforms then st
  else if 1 ≤ m ∧ p = "instagram" ∧ finalMedia = [] then
    { st with errors := st.errors ++ [instagramMediaError] }
  else if p ∈ supportedPlatforms then
    match platformAttempts call p m (List.range' 1 m) st.retryCount with
    | (some postId, _, rc) =>
      { st with postIds := st.postIds ++ [(p, postId)], retryCount := rc }
    | (none, some err, rc) => { st with errors := st.errors ++ [err], retryCount := rc }
    | (none, none, rc) => { st with retryCount := rc }
  else st

/-- The post_ids, errors and retry_count accumulated by the whole fan-out loop
over the active platform configs. -/
def fanState (call : String → Nat → Except String String) (placidResult : Option String)
    (configs : List PlatformConfig) (m : Nat) (c : Content) : FanState :=
  (configs.filter (fun cfg => cfg.isActive)).foldl
    (processConfig call (finalMediaUrls placidResult c.mediaUrls) c.platforms m)
    { postIds := [], errors := [], retryCount := c.retryCount }

/-- The whole of _publish_content (posting_tasks.py lines 26-194): content not
in APPROVED is left untouched (line 37); otherwise the fan-out runs and the
aggregate of lines 183-194 is applied: any success gives PUBLISHED with
platform_post_ids and published_at set, no success gives FAILED, and a
non-empty errors list is joined into error_message. -/
def publishContentRun (call : String → Nat → Except String String)
    (placidResult : Option String) (configs : List PlatformConfig) (m : Nat)
    (now : Int) (c : Content) : Content :=
  if c.status ≠ ContentStatus.approved then c
  else
    let st := fanState call placidResult configs m c
    let c1 :=
      if st.postIds ≠ [] then
        { c with platformPostIds := st.postIds, status := ContentStatus.published,
                 publishedAt := some now, retryCount := st.retryCount }
      else { c with status := ContentStatus.failed, retryCount := st.retryCount }
    if st.errors ≠ [] then
      { c1 with errorMessage := some (String.intercalate "; " st.errors) }
    else c1

/-! ## ApprovalGateway: app/api/routes/approval.py -/

/-- The approve branch of the approval route (approval.py lines 50-68): the
status becomes APPROVED with no precondition on the current status and with
no other field changed — in particular rejection_reason is not cleared. -/
def approveContentStep (c : Content) : Content :=
  { c with status := ContentStatus.approved }

/-- The reject branch of the approval route (approval.py lines 70-91): the
status becomes REJECTED with no precondition on the current status,
rejection_reason is set to the given reason or a default when the reason is
absent or empty, and retry_count is incremented unconditionally.  The boolean
reports whether regeneration is triggered, namely whether the incremented
retry_count is below the hard-coded bound 3 (line 78). -/
def rejectContentStep (c : Content) (reason : Option String) : Content × Bool :=
  let c1 : Content :=
    { c with status := ContentStatus.rejected,
             rejectionReason := some (pyOrElse reason "No reason provided"),
             retryCount := c.retryCount + 1 }
  (c1, decide (c1.retryCount < 3))

/-- Result of an AI generation call (ai_service.generate_social_post). -/
structure AiSocialPost where
  caption : String
  hashtags : List String
  cta : String
  deriving DecidableEq, Repr

/-- The feedback notes built by regenerate_rejected_content (approval.py
lines 346-347): the existing notes followed by the rejection reason. -/
def regenFeedback (c : Content) : String :=
  (match c.notes with | some n => n | none => "") ++
    "\n\nPrevious attempt was rejected: " ++ pyStr c.rejectionReason ++
    ". Try a different angle or tone."

/-- The first commit of regenerate_rejected_content (approval.py lines
341-343): the content is marked RETRYING. -/
def regenMarkRetrying (c : Content) : Content :=
  { c with status := ContentStatus.retrying }

/-- The generation phase of regenerate_rejected_content (approval.py lines
345-388), run on the content already marked RETRYING: the generator is called
with the feedback notes, on success caption, hashtags and cta are replaced and
the status becomes PENDING_APPROVAL, then platform variations are generated
when platforms is non-empty; any generator or variations error lands the
content in FAILED with the error recorded.  The gen oracle maps the notes text
passed to the generator to its outcome; the vars oracle gives the platform
variations call outcome. -/
def regenerateFrom (gen : String → Except String AiSocialPost)
    (vars : Except String (List (String × String))) (c0 : Content) : Content :=
  match gen (regenFeedback c0) with
  | Except.error e =>
    { c0 with status := ContentStatus.failed,
              errorMessage := some ("Regeneration failed: " ++ e) }
  | Except.ok r =>
    let c1 : Content :=
      { c0 with caption := some r.caption, hashtags := r.hashtags, cta := some r.cta,
                status := ContentStatus.pendingApproval }
    if c1.platforms ≠ [] then
      match vars with
      | Except.error e =>
        { c1 with status := ContentStatus.failed,
                  errorMessage := some ("Regeneration failed: " ++ e) }
      | Except.ok pv => { c1 with platformCaptions := pv }
    else c1

/-- The whole of regenerate_rejected_content (approval.py lines 320-388). -/
def regenerateRejectedContent (gen : String → Except String AiSocialPost)
    (vars : Except String (List (String × String))) (c : Content) : Content :=
  regenerateFrom gen vars (regenMarkRetrying c)

/-- Reject followed by the background regeneration task exactly when the
route triggered it (approval.py lines 70-83). -/
def rejectThenRegenerate (gen : String → Except String AiSocialPost)
    (vars : Except String (List (String × String)))
    (c : Content) (reason : Option String) : Content :=
  let p := rejectContentStep c reason
  if p.2 then regenerateRejectedContent gen vars p.1 else p.1

/-- Outcome of the publer_service.schedule_post call as consumed by
publish_approved_content (approval.py lines 292-317): a success payload with
platform post ids, a non-success result with an error field, or a raised
exception. -/
inductive PublerOutcome where
  | success (postIds : List (String × String))
  | failure (err : String)
  | exception (e : String)
  deriving DecidableEq, Repr

/-- The state updates of publish_approved_content (approval.py lines 174-317):
without configured Publer accounts the content fails; on a success result the
status becomes SCHEDULED and platform_post_ids is taken from the result; on a
non-success result or an exception the content fails with the error recorded.
No branch touches published_at and no branch checks the current status. -/
def publishApprovedContent (res : PublerOutcome) (client : Client) (c : Content) : Content :=
  if client.publerAccountIds = [] then
    { c with status := ContentStatus.failed,
             errorMessage := some "No Publer accounts configured for this client" }
  else
    match res with
    | PublerOutcome.success ids =>
      { c with status := ContentStatus.scheduled, platformPostIds := ids }
    | PublerOutcome.failure e =>
      { c with status := ContentStatus.failed,
               errorMessage := some ("Publer scheduling failed: " ++ e) }
    | PublerOutcome.exception e =>
      { c with status := ContentStatus.failed,
               errorMessage := some ("Publishing error: " ++ e) }

/-! ## GenerationCoordinator: app/api/routes/intake.py and
app/tasks/content_tasks.py -/

/-- The success/failure paths of generate_and_process_content (intake.py
lines 355-484): on generator success the caption (polished), hashtags, cta and
platform variations are stored, the status becomes PENDING_APPROVAL
unconditionally — the auto_post flag is consulted only for the notification
email — and the client's posts_this_month is incremented; any error from the
generator or the variations step lands the content in FAILED with
error_message set to the error text and leaves the client untouched. -/
def generateAndProcessContent (gen : String → Except String AiSocialPost)
    (polish : String → String) (tags : List String)
    (vars : Except String (List (String × String)))
    (autoPost : Bool) (c : Content) (client : Client) : Content × Client :=
  match gen (pyStr c.notes) with
  | Except.error e =>
    ({ c with status := ContentStatus.failed, errorMessage := some e }, client)
  | Except.ok r =>
    let c1 : Content :=
      { c with cta := some r.cta, caption := some (polish r.caption), hashtags := tags }
    if c1.platforms ≠ [] then
      match vars with
      | Except.error e =>
        ({ c1 with status := ContentStatus.failed, errorMessage := some e }, client)
      | Except.ok pv =>
        ({ c1 with platformCaptions := pv, status := ContentStatus.pendingApproval },
         { client with postsThisMonth := client.postsThisMonth + 1 })
    else
      ({ c1 with status := ContentStatus.pendingApproval },
       { client with postsThisMonth := client.postsThisMonth + 1 })

/-- The success/failure paths of _generate_content (content_tasks.py lines
41-83): the status becomes PENDING_APPROVAL on success — a variations error is
swallowed by its inner try — and FAILED with the error text on a generator
error.  No auto_post flag is even read. -/
def generateContentTask (gen : String → Except String AiSocialPost)
    (vars : Except String (List (String × String))) (c : Content) : Content :=
  match gen (pyStr c.notes) with
  | Except.error e =>
    { c with status := ContentStatus.failed, errorMessage := some e }
  | Except.ok r =>
    let c1 : Content :=
      { c with caption := some r.caption, hashtags := r.hashtags, cta := some r.cta,
               status := ContentStatus.pendingApproval }
    if c1.platforms ≠ [] then
      match vars with
      | Except.error _ => c1
      | Except.ok pv => { c1 with platformCaptions := pv }
    else c1

/-! ## Intake and QuotaGate: app/api/routes/intake.py -/

/-- The rejection outcomes of submit_intake_form_with_token, each mapped by
FastAPI to an HTTP error response. -/
inductive IntakeError where
  | notFound
  | inactiveAccount
  | quotaExceeded (limit : Nat)
  | missingTopic
  deriving DecidableEq, Repr

/-- HTTP status code attached to each rejection (intake.py lines 124-141,
189-194). -/
def intakeHttpStatus : IntakeError → Nat
  | IntakeError.notFound => 404
  | IntakeError.inactiveAccount => 403
  | IntakeError.quotaExceeded _ => 400
  | IntakeError.missingTopic => 400

/-- The user-visible detail message of each rejection. -/
def intakeErrorDetail : IntakeError → String
  | IntakeError.notFound => "Invalid intake form link. Please contact support."
  | IntakeError.inactiveAccount => "Your account is not active. Please contact support."
  | IntakeError.quotaExceeded limit =>
      "You have reached your monthly post limit of " ++ toString limit ++
        " posts. Please upgrade your plan."
  | IntakeError.missingTopic =>
      "Please provide either a topic or upload at least one image"

/-- The intake form payload (app/schemas/content.py ContentIntakeForm), with
the fields the route reads. -/
structure IntakeForm where
  topic : Option String
  notes : Option String
  mediaUrls : List String
  autoPost : Bool
  deriving DecidableEq, Repr

/-- The Draft row created by the intake route (intake.py lines 197-206). -/
def mkDraftContent (client : Client) (topic : String) (form : IntakeForm) : Content :=
  { clientId := client.id
    topic := topic
    notes := form.notes
    caption := none
    hashtags := []
    cta := none
    platformCaptions := []
    mediaUrls := form.mediaUrls
    platforms := client.platformsEnabled
    platformPostIds := []
    scheduledAt := none
    publishedAt := none
    status := ContentStatus.draft
    errorMessage := none
    retryCount := 0
    rejectionReason := none }

/-- The request-handling part of submit_intake_form_with_token (intake.py
lines 107-230): token lookup, active check, the quota pre-check
posts_this_month >= monthly_post_limit (lines 137-141), topic handling with
the image-analysis fallback (the imageTopic oracle stands for the analyzed
topic), and creation of the Draft row.  The route itself never modifies the
client; the quota increment lives in the background generation task. -/
def submitIntakeWithToken (clientLookup : Option Client) (form : IntakeForm)
    (imageTopic : String) : Except IntakeError Content :=
  match clientLookup with
  | none => Except.error IntakeError.notFound
  | some client =>
    if client.isActive = false then Except.error IntakeError.inactiveAccount
    else if client.monthlyPostLimit ≤ client.postsThisMonth then
      Except.error (IntakeError.quotaExceeded client.monthlyPostLimit)
    else
      let topicGiven : Option String :=
        match form.topic with
        | some t => if t = "" then none else some t
        | none => none
      match topicGiven, form.mediaUrls with
      | none, [] => Except.error IntakeError.missingTopic
      | none, _ :: _ => Except.ok (mkDraftContent client imageTopic form)
      | some t, _ => Except.ok (mkDraftContent client t form)

/-! ## Quota interleaving model

Each SubmitContent call runs the handler above (whose quota check reads
posts_this_month at request time) and, when accepted, later runs the
background generation task which performs the increment
posts_this_month += 1 on success (intake.py line 454).  A schedule is a list
of these atomic database steps. -/

/-- Shared state for racing SubmitContent pipelines of one client. -/
structure QuotaWorld where
  postsThisMonth : Nat
  monthlyPostLimit : Nat
  accepted : List Bool
  drafts : Nat
  pendingGens : Nat
  deriving DecidableEq, Repr

/-- The atomic steps of one pipeline: the submit handler (check against the
current count, create the Draft, enqueue generation) and the generation
commit (increment the count). -/
inductive QuotaOp where
  | submitOp
  | generateOp
  deriving DecidableEq, Repr

/-- Effect of one step on the shared state.  A submit that fails the quota
pre-check records a denial and changes nothing else; an accepted submit
creates a Draft and enqueues a generation; a generation commit increments
posts_this_month. -/
def quotaStep (w : QuotaWorld) : QuotaOp → QuotaWorld
  | QuotaOp.submitOp =>
    if w.monthlyPostLimit ≤ w.postsThisMonth then
      { w with accepted := w.accepted ++ [false] }
    else
      { w with accepted := w.accepted ++ [true], drafts := w.drafts + 1,
               pendingGens := w.pendingGens + 1 }
  | QuotaOp.generateOp =>
    match w.pendingGens with
    | 0 => w
    | n + 1 => { w with postsThisMonth := w.postsThisMonth + 1, pendingGens := n }

/-- Run a schedule of steps from a starting state. -/
def runQuotaSchedule (ops : List QuotaOp) (w : QuotaWorld) : QuotaWorld :=
  ops.foldl quotaStep w

/-! ## RecyclingScheduler: app/tasks/recycling_tasks.py -/

/-- The selection predicate of find_recyclable_content (recycling_tasks.py
lines 37-49): status PUBLISHED, published_at at most the thirty-day cutoff
(a NULL published_at never satisfies the SQL comparison), error_message NULL,
and an active client. -/
def isRecyclableAt (cutoff : Int) (client : Client) (c : Content) : Bool :=
  decide (c.status = ContentStatus.published) &&
    (match c.publishedAt with
     | some t => decide (t ≤ cutoff)
     | none => false) &&
    decide (c.errorMessage = none) &&
    client.isActive

/-! ## Concrete fixtures used in scenario theorems and witnesses -/

/-- A baseline approved content row with no media, targeting facebook only,
with a future scheduled_at. -/
def cFuture : Content :=
  { clientId := 1, topic := "summer sale", notes := none, caption := some "cap",
    hashtags := ["h1"], cta := some "call us", platformCaptions := [],
    mediaUrls := [], platforms := ["facebook"], platformPostIds := [],
    scheduledAt := some 100, publishedAt := none, status := ContentStatus.approved,
    errorMessage := none, retryCount := 0, rejectionReason := none }

/-- An oracle whose every platform call succeeds. -/
def allOkCall : String → Nat → Except String String :=
  fun _ _ => Except.ok "fb_post_1"

/-- An oracle where facebook succeeds and every other platform always fails. -/
def partialCall : String → Nat → Except String String :=
  fun p _ => if p = "facebook" then Except.ok "fb_post_1" else Except.error "down"

/-- Approved content with media targeting three platforms. -/
def c3plat : Content :=
  { cFuture with platforms := ["facebook", "google_business", "linkedin"],
                 mediaUrls := ["m1.png"] }

/-- Active platform configurations for the three platforms of c3plat. -/
def cfgs3 : List PlatformConfig :=
  [{ platform := "facebook", isActive := true },
   { platform := "google_business", isActive := true },
   { platform := "linkedin", isActive := true }]

/-- Approved content with no media targeting facebook and instagram. -/
def cFbIg : Content := { cFuture with platforms := ["facebook", "instagram"] }

/-- Active platform configurations for facebook and instagram. -/
def cfgsFbIg : List PlatformConfig :=
  [{ platform := "facebook", isActive := true },
   { platform := "instagram", isActive := true }]

/-- A client with a Publer account configured. -/
def clientPub : Client :=
  { id := 1, businessName := "Acme Roofing", monthlyPostLimit := 8, postsThisMonth := 0,
    autoPost := false, isActive := true, platformsEnabled := ["facebook"],
    publerAccountIds := ["acc1"] }

/-- A generator oracle that always succeeds with a fixed payload. -/
def genOkFix : String → Except String AiSocialPost :=
  fun _ => Except.ok { caption := "new caption", hashtags := ["new"], cta := "new cta" }

/-- A platform-variations oracle that always succeeds. -/
def varsOkFix : Except String (List (String × String)) :=
  Except.ok [("facebook", "fb variant")]

/-- The spec scenario's starting state for the quota race:
monthly_post_limit = 1, posts_this_month = 0, no submissions yet. -/
def w0Quota : QuotaWorld :=
  { postsThisMonth := 0, monthlyPostLimit := 1, accepted := [], drafts := 0,
    pendingGens := 0 }

/-- Content sitting at the retry cap in PendingApproval. -/
def cAtCap : Content :=
  { cFuture with status := ContentStatus.pendingApproval, retryCount := 3 }

/-- A client with auto_post enabled. -/
def clientAuto : Client := { clientPub with autoPost := true }

/-- A draft row awaiting generation. -/
def cDraftGen : Content := { cFuture with status := ContentStatus.draft }

/-- Published content carrying a stale rejection reason. -/
def cPubStale : Content :=
  { cFuture with status := ContentStatus.published, publishedAt := some 10,
                 rejectionReason := some "old reason" }

/-- The spec scenario's rejection content: PendingApproval with
retry_count = 2. -/
def cSalesy : Content :=
  { cFuture with status := ContentStatus.pendingApproval, retryCount := 2 }

/-- An intake form with a topic and no media. -/
def formFix : IntakeForm :=
  { topic := some "roof repair", notes := none, mediaUrls := [], autoPost := false }

/-! ## Helper lemmas: the fan-out loop never drives retry_count above the
attempt bound -/

theorem platformAttempts_retry_le (call : String → Nat → Except String String)
    (p : String) (m : Nat) :
    ∀ (l : List Nat) (rc : Nat), (∀ a ∈ l, a ≤ m) →
      (platformAttempts call p m l rc).2.2 ≤ max rc m
  | [], rc, _ => by simp [platformAttempts]
  | a :: rest, rc, h => by
    have ham : a ≤ m := h a (List.mem_cons_self a rest)
    cases hc : call p a with
    | ok postId =>
      simp only [platformAttempts, hc]
      exact Nat.le_max_left _ _
    | error e =>
      simp only [platformAttempts, hc]
      by_cases hlt : a < m
      · rw [if_pos hlt]
        have ih := platformAttempts_retry_le call p m rest a
          (fun b hb => h b (List.mem_cons_of_mem a hb))
        calc (platformAttempts call p m rest a).2.2
            ≤ max a m := ih
          _ ≤ max rc m := by omega
      · rw [if_neg hlt]
        exact le_trans ham (Nat.le_max_right _ _)

theorem processConfig_retry_le (call : String → Nat → Except String String)
    (fm : List String) (pls : List String) (m : Nat) (st : FanState)
    (cfg : PlatformConfig) :
    (processConfig call fm pls m st cfg).retryCount ≤ max st.retryCount m := by
  unfold processConfig
  by_cases h1 : cfg.platform ∉ pls
  · rw [if_pos h1]; exact Nat.le_max_left _ _
  rw [if_neg h1]
  by_cases h2 : 1 ≤ m ∧ cfg.platform = "instagram" ∧ fm = []
  · rw [if_pos h2]; exact Nat.le_max_left _ _
  rw [if_neg h2]
  by_cases h3 : cfg.platform ∈ supportedPlatforms
  · rw [if_pos h3]
    have hb := platformAttempts_retry_le call cfg.platform m (List.range' 1 m)
      st.retryCount (fun a ha => by rw [List.mem_range'_1] at ha; omega)
    rcases hres : platformAttempts call cfg.platform m (List.range' 1 m) st.retryCount
      with ⟨pid, err, rc⟩
    rw [hres] at hb
    cases pid <;> cases err <;> simpa using hb
  · rw [if_neg h3]; exact Nat.le_max_left _ _

theorem fanFold_retry_le (call : String → Nat → Except String String)
    (fm : List String) (pls : List String) (m : Nat) :
    ∀ (cfgs : List PlatformConfig) (st : FanState),
      (cfgs.foldl (processConfig call fm pls m) st).retryCount ≤ max st.retryCount m
  | [], st => by simp
  | cfg :: rest, st => by
    simp only [List.foldl_cons]
    have h1 := processConfig_retry_le call fm pls m st cfg
    have h2 := fanFold_retry_le call fm pls m rest (processConfig call fm pls m st cfg)
    omega

theorem fanState_retry_le (call : String → Nat → Except String String)
    (placid : Option String) (configs : List PlatformConfig) (m : Nat) (c : Content) :
    (fanState call placid configs m c).retryCount ≤ max c.retryCount m := by
  unfold fanState
  exact fanFold_retry_le _ _ _ _ _ _

/-! ## C1: aggregation of the publish fan-out -/

/-- C1 counterexample.  The claim asserts that when at least one platform
succeeds and scheduled_at is in the future the final status is Scheduled.
For content with scheduled_at = 100, publishing at now = 0 with a succeeding
facebook call, _publish_content sets status PUBLISHED, not SCHEDULED: the
fan-out never produces the Scheduled status. -/
theorem C1_counterexample :
    cFuture.scheduledAt = some 100 ∧ (0 : Int) < 100 ∧
    (publishContentRun allOkCall none [{ platform := "facebook", isActive := true }]
        MAX_RETRY_ATTEMPTS 0 cFuture).status = ContentStatus.published ∧
    (publishContentRun allOkCall none [{ platform := "facebook", isActive := true }]
        MAX_RETRY_ATTEMPTS 0 cFuture).status ≠ ContentStatus.scheduled := by
  refine ⟨rfl, by norm_num, ?_, ?_⟩ <;> decide

/-- C1 (amended): for every fan-out run on APPROVED content, if at least one
platform succeeds the final status is Published — regardless of scheduled_at;
the fan-out never yields Scheduled — platform_post_ids holds exactly the
platforms that succeeded and error_message joins the entries of the platforms
that ultimately failed (by retry exhaustion or validation); if every platform
fails the final status is Failed.  One platform's exhaustion never makes the
content Failed while another succeeded. -/
theorem C1_publish_aggregate (call : String → Nat → Except String String)
    (placid : Option String) (configs : List PlatformConfig) (now : Int)
    (c : Content) (happ : c.status = ContentStatus.approved) :
    ((fanState call placid configs MAX_RETRY_ATTEMPTS c).postIds ≠ [] →
      (publishContentRun call placid configs MAX_RETRY_ATTEMPTS now c).status =
          ContentStatus.published ∧
      (publishContentRun call placid configs MAX_RETRY_ATTEMPTS now c).platformPostIds =
          (fanState call placid configs MAX_RETRY_ATTEMPTS c).postIds) ∧
    ((fanState call placid configs MAX_RETRY_ATTEMPTS c).postIds = [] →
      (publishContentRun call placid configs MAX_RETRY_ATTEMPTS now c).status =
          ContentStatus.failed) ∧
    ((fanState call placid configs MAX_RETRY_ATTEMPTS c).errors ≠ [] →
      (publishContentRun call placid configs MAX_RETRY_ATTEMPTS now c).errorMessage =
        some (String.intercalate "; "
          (fanState call placid configs MAX_RETRY_ATTEMPTS c).errors)) := by
  unfold publishContentRun
  rw [if_neg (by simp [happ])]
  by_cases hp : (fanState call placid configs MAX_RETRY_ATTEMPTS c).postIds = [] <;>
    by_cases he : (fanState call placid configs MAX_RETRY_ATTEMPTS c).errors = [] <;>
      simp [hp, he]

/-- C1 witness: the partial-success scenario of the spec.  Three platforms,
facebook succeeds, the two others exhaust their retries; the content ends
Published with exactly one platform_post_ids entry and error_message naming
the two failed platforms. -/
theorem C1_publish_aggregate_witness :
    (fanState partialCall none cfgs3 MAX_RETRY_ATTEMPTS c3plat).postIds ≠ [] ∧
    (publishContentRun partialCall none cfgs3 MAX_RETRY_ATTEMPTS 77 c3plat).status =
        ContentStatus.published ∧
    (publishContentRun partialCall none cfgs3 MAX_RETRY_ATTEMPTS 77 c3plat).platformPostIds =
        [("facebook", "fb_post_1")] ∧
    (publishContentRun partialCall none cfgs3 MAX_RETRY_ATTEMPTS 77 c3plat).errorMessage =
        some "google_business: down; linkedin: down" := by
  have h := C1_publish_aggregate partialCall none cfgs3 77 c3plat rfl
  refine ⟨by decide, (h.1 (by decide)).1, by decide, ?_⟩
  have he := h.2.2 (by decide)
  rw [he]
  decide

/-! ## C2: quota check vs. increment under concurrency -/

/-- C2 counterexample.  The claim asserts the check and increment are applied
atomically so that with monthly_post_limit = 1 exactly one of two concurrent
SubmitContent calls succeeds.  In the code the check (intake.py line 137)
reads posts_this_month at request time while the increment (intake.py
line 454) runs later inside the background generation task: when both
submissions arrive before either generation commits — the normal schedule,
since generation is asynchronous — both pass the stale check, both create
Drafts, and posts_this_month reaches 2 > 1. -/
theorem C2_counterexample :
    w0Quota.monthlyPostLimit = 1 ∧ w0Quota.postsThisMonth = 0 ∧
    (runQuotaSchedule [QuotaOp.submitOp, QuotaOp.submitOp,
        QuotaOp.generateOp, QuotaOp.generateOp] w0Quota).accepted = [true, true] ∧
    (runQuotaSchedule [QuotaOp.submitOp, QuotaOp.submitOp,
        QuotaOp.generateOp, QuotaOp.generateOp] w0Quota).drafts = 2 ∧
    (runQuotaSchedule [QuotaOp.submitOp, QuotaOp.submitOp,
        QuotaOp.generateOp, QuotaOp.generateOp] w0Quota).postsThisMonth = 2 := by
  decide

/-- C2 (amended): the quota gate is a non-atomic pre-check.  A submission is
denied exactly when the count it reads has already reached the limit, and a
denied submission changes nothing; hence with limit 1 the second submission
is denied only under the schedule in which the first submission's generation
increment commits before the second submission's check — under the
interleaving where both checks precede the increments, both submissions are
accepted and posts_this_month exceeds the limit. -/
theorem C2_quota_not_atomic :
    (∀ w : QuotaWorld, w.monthlyPostLimit ≤ w.postsThisMonth →
      quotaStep w QuotaOp.submitOp = { w with accepted := w.accepted ++ [false] }) ∧
    (runQuotaSchedule [QuotaOp.submitOp, QuotaOp.generateOp, QuotaOp.submitOp]
        w0Quota).accepted = [true, false] ∧
    (runQuotaSchedule [QuotaOp.submitOp, QuotaOp.generateOp, QuotaOp.submitOp]
        w0Quota).drafts = 1 ∧
    (runQuotaSchedule [QuotaOp.submitOp, QuotaOp.generateOp, QuotaOp.submitOp]
        w0Quota).postsThisMonth = 1 := by
  refine ⟨fun w h => ?_, by decide, by decide, by decide⟩
  simp [quotaStep, h]

/-- C2 witness: a client already at the limit is denied and the state is
unchanged apart from the recorded denial. -/
theorem C2_quota_not_atomic_witness :
    quotaStep { postsThisMonth := 1, monthlyPostLimit := 1, accepted := [true],
                drafts := 1, pendingGens := 0 } QuotaOp.submitOp =
      { postsThisMonth := 1, monthlyPostLimit := 1, accepted := [true, false],
        drafts := 1, pendingGens := 0 } :=
  C2_quota_not_atomic.1 _ (by decide)

/-! ## C3: the retry cap -/

/-- C3 counterexample.  The claim asserts retry_count never exceeds
max_retries = 3.  The reject branch increments retry_count unconditionally
(approval.py line 74), so rejecting content whose retry_count is already 3
drives it to 4. -/
theorem C3_counterexample :
    cAtCap.retryCount = 3 ∧
    (rejectThenRegenerate genOkFix varsOkFix cAtCap (some "still wrong")).retryCount = 4 ∧
    ¬ (rejectThenRegenerate genOkFix varsOkFix cAtCap (some "still wrong")).retryCount ≤ 3 := by
  decide

/-- C3 (amended): Reject increments retry_count by exactly one with no upper
guard, so repeated rejects push it past max_retries = 3; what does hold is
that once the incremented retry_count has reached 3 no regeneration is
triggered — the reject leaves the content in Rejected and it never advances
to Retrying — and that the publish fan-out only ever writes retry_count
values bounded by the configured attempt cap (never above
max(retry_count, MAX_RETRY_ATTEMPTS)). -/
theorem C3_retry_cap (gen : String → Except String AiSocialPost)
    (vars : Except String (List (String × String))) (c : Content)
    (reason : Option String) (call : String → Nat → Except String String)
    (placid : Option String) (configs : List PlatformConfig) :
    ((rejectContentStep c reason).1.retryCount = c.retryCount + 1) ∧
    (3 ≤ c.retryCount + 1 →
      rejectThenRegenerate gen vars c reason = (rejectContentStep c reason).1 ∧
      (rejectThenRegenerate gen vars c reason).status = ContentStatus.rejected) ∧
    ((fanState call placid configs MAX_RETRY_ATTEMPTS c).retryCount ≤
      max c.retryCount MAX_RETRY_ATTEMPTS) := by
  refine ⟨rfl, fun h => ?_, fanState_retry_le call placid configs MAX_RETRY_ATTEMPTS c⟩
  have hfalse : (rejectContentStep c reason).2 = false := by
    simp only [rejectContentStep, decide_eq_false_iff_not]
    omega
  constructor
  · simp [rejectThenRegenerate, hfalse]
  · simp [rejectThenRegenerate, hfalse, rejectContentStep,
      show ¬ (c.retryCount + 1 < 3) from by omega]

/-- C3 witness: rejecting content already at retry_count = 3 yields
retry_count 4, stays Rejected and triggers no regeneration; the fan-out
bound instantiated at the three-platform run. -/
theorem C3_retry_cap_witness :
    (rejectContentStep cAtCap (some "still wrong")).1.retryCount = cAtCap.retryCount + 1 ∧
    rejectThenRegenerate genOkFix varsOkFix cAtCap (some "still wrong") =
      (rejectContentStep cAtCap (some "still wrong")).1 ∧
    (rejectThenRegenerate genOkFix varsOkFix cAtCap (some "still wrong")).status =
      ContentStatus.rejected ∧
    (fanState partialCall none cfgs3 MAX_RETRY_ATTEMPTS cAtCap).retryCount ≤
      max cAtCap.retryCount MAX_RETRY_ATTEMPTS := by
  have h := C3_retry_cap genOkFix varsOkFix cAtCap (some "still wrong")
    partialCall none cfgs3
  exact ⟨h.1, (h.2.1 (by decide)).1, (h.2.1 (by decide)).2, h.2.2⟩

/-! ## C4: generation outcome vs. auto_post -/

/-- C4 counterexample.  The claim asserts a successful generation moves the
content to Approved when the client's auto_post flag is set.  The code sets
PENDING_APPROVAL unconditionally (intake.py lines 449-450, under the comment
that everything awaits admin review); auto_post only decides whether a review
notification email is sent. -/
theorem C4_counterexample :
    clientAuto.autoPost = true ∧
    (generateAndProcessContent genOkFix id ["tag"] varsOkFix true
        cDraftGen clientAuto).1.status = ContentStatus.pendingApproval ∧
    (generateAndProcessContent genOkFix id ["tag"] varsOkFix true
        cDraftGen clientAuto).1.status ≠ ContentStatus.approved := by
  decide

/-- C4 (amended): successful generation transitions the content to
PendingApproval regardless of the auto_post flag, and commits the client's
posts_this_month increment; a generator error transitions the content to
Failed with error_message set to the error text and leaves the client
untouched.  The Celery variant _generate_content behaves the same on
success. -/
theorem C4_generation_outcome (gen : String → Except String AiSocialPost)
    (polish : String → String) (tags : List String)
    (vars : Except String (List (String × String))) (autoPost : Bool)
    (c : Content) (client : Client) :
    (∀ r pv, gen (pyStr c.notes) = Except.ok r → vars = Except.ok pv →
      (generateAndProcessContent gen polish tags vars autoPost c client).1.status =
          ContentStatus.pendingApproval ∧
      (generateAndProcessContent gen polish tags vars autoPost c client).2.postsThisMonth =
          client.postsThisMonth + 1) ∧
    (∀ e, gen (pyStr c.notes) = Except.error e →
      (generateAndProcessContent gen polish tags vars autoPost c client).1.status =
          ContentStatus.failed ∧
      (generateAndProcessContent gen polish tags vars autoPost c client).1.errorMessage =
          some e ∧
      (generateAndProcessContent gen polish tags vars autoPost c client).2 = client) ∧
    (∀ r, gen (pyStr c.notes) = Except.ok r →
      (generateContentTask gen vars c).status = ContentStatus.pendingApproval) := by
  refine ⟨fun r pv hg hv => ?_, fun e hg => ?_, fun r hg => ?_⟩
  · by_cases hpl : c.platforms = [] <;>
      simp [generateAndProcessContent, hg, hv, hpl]
  · simp [generateAndProcessContent, hg]
  · by_cases hpl : c.platforms = [] <;>
      cases vars <;> simp [generateContentTask, hg, hpl]

/-- C4 witness: the fixed successful generator on the draft fixture with
auto_post set, and the failing generator on the same fixture. -/
theorem C4_generation_outcome_witness :
    (generateAndProcessContent genOkFix id ["tag"] varsOkFix true
        cDraftGen clientAuto).1.status = ContentStatus.pendingApproval ∧
    (generateAndProcessContent genOkFix id ["tag"] varsOkFix true
        cDraftGen clientAuto).2.postsThisMonth = clientAuto.postsThisMonth + 1 ∧
    (generateAndProcessContent (fun _ => Except.error "timeout") id ["tag"] varsOkFix
        false cDraftGen clientAuto).1.status = ContentStatus.failed ∧
    (generateAndProcessContent (fun _ => Except.error "timeout") id ["tag"] varsOkFix
        false cDraftGen clientAuto).1.errorMessage = some "timeout" ∧
    (generateContentTask genOkFix varsOkFix cDraftGen).status =
      ContentStatus.pendingApproval := by
  have h1 := C4_generation_outcome genOkFix id ["tag"] varsOkFix true cDraftGen clientAuto
  have h2 := C4_generation_outcome (fun _ => Except.error "timeout") id ["tag"]
    varsOkFix false cDraftGen clientAuto
  refine ⟨(h1.1 _ _ rfl rfl).1, (h1.1 _ _ rfl rfl).2, (h2.2.1 _ rfl).1,
    (h2.2.1 _ rfl).2.1, h1.2.2 _ rfl⟩

/-! ## C5: approval preconditions -/

/-- C5 counterexample.  The claim asserts an approval attempt on content that
is not PendingApproval is rejected as an invalid-transition error and leaves
the content unchanged, and that Reject requires a non-empty reason.  The
route has no state precondition at all: approving Published content simply
coerces its status to Approved (without clearing rejection_reason), and a
reject with an empty reason is accepted with the default reason text. -/
theorem C5_counterexample :
    cPubStale.status = ContentStatus.published ∧
    (approveContentStep cPubStale).status = ContentStatus.approved ∧
    approveContentStep cPubStale ≠ cPubStale ∧
    (approveContentStep cPubStale).rejectionReason = some "old reason" ∧
    (rejectContentStep cPubStale (some "")).1.status = ContentStatus.rejected ∧
    (rejectContentStep cPubStale (some "")).1.rejectionReason =
      some "No reason provided" := by
  decide

/-- C5 (amended): the approval route enforces no state precondition and never
raises an invalid-transition error: from every current status Approve coerces
the status to Approved leaving every other field — including
rejection_reason — unchanged, and Reject coerces the status to Rejected,
stores the given reason or the default text when the reason is absent or
empty, and increments retry_count. -/
theorem C5_no_precondition (c : Content) (s : ContentStatus) (reason : Option String) :
    approveContentStep { c with status := s } =
      { c with status := ContentStatus.approved } ∧
    (rejectContentStep { c with status := s } reason).1 =
      { c with status := ContentStatus.rejected,
               rejectionReason := some (pyOrElse reason "No reason provided"),
               retryCount := c.retryCount + 1 } ∧
    (rejectContentStep { c with status := s } none).1.rejectionReason =
      some "No reason provided" ∧
    (rejectContentStep { c with status := s } (some "")).1.rejectionReason =
      some "No reason provided" := by
  exact ⟨rfl, rfl, rfl, rfl⟩

/-! ## C6: published_at discipline -/

/-- C6 counterexample.  The claim asserts published_at is set iff the status
is Scheduled or Published.  The Publer scheduling path (approval.py lines
299-303) moves content to SCHEDULED without ever touching published_at, so
Scheduled content has published_at unset. -/
theorem C6_counterexample :
    (publishApprovedContent (PublerOutcome.success [("facebook", "p1")])
        clientPub cFuture).status = ContentStatus.scheduled ∧
    (publishApprovedContent (PublerOutcome.success [("facebook", "p1")])
        clientPub cFuture).publishedAt = none := by
  decide

/-- C6 (amended): published_at is stamped only by the direct publish fan-out,
exactly at the transition into Published (when at least one platform
succeeded); a fan-out run that fails completely leaves it untouched, a
fan-out invoked on content not in Approved — including content already
Published — changes nothing at all (so the stamp is never re-applied), and
the Publer scheduling path never touches published_at, leaving Scheduled
content with published_at unset. -/
theorem C6_published_at (res : PublerOutcome) (client : Client)
    (call : String → Nat → Except String String) (placid : Option String)
    (configs : List PlatformConfig) (now : Int) (c : Content) :
    ((publishApprovedContent res client c).publishedAt = c.publishedAt) ∧
    (c.status = ContentStatus.approved →
      ((fanState call placid configs MAX_RETRY_ATTEMPTS c).postIds ≠ [] →
        (publishContentRun call placid configs MAX_RETRY_ATTEMPTS now c).publishedAt =
            some now ∧
        (publishContentRun call placid configs MAX_RETRY_ATTEMPTS now c).status =
            ContentStatus.published) ∧
      ((fanState call placid configs MAX_RETRY_ATTEMPTS c).postIds = [] →
        (publishContentRun call placid configs MAX_RETRY_ATTEMPTS now c).publishedAt =
            c.publishedAt)) ∧
    (c.status ≠ ContentStatus.approved →
      publishContentRun call placid configs MAX_RETRY_ATTEMPTS now c = c) := by
  refine ⟨?_, fun happ => ⟨fun hp => ?_, fun hp => ?_⟩, fun hne => ?_⟩
  · by_cases hacc : client.publerAccountIds = [] <;>
      cases res <;> simp [publishApprovedContent, hacc]
  · unfold publishContentRun
    rw [if_neg (by simp [happ])]
    by_cases he : (fanState call placid configs MAX_RETRY_ATTEMPTS c).errors = [] <;>
      simp [hp, he]
  · unfold publishContentRun
    rw [if_neg (by simp [happ])]
    by_cases he : (fanState call placid configs MAX_RETRY_ATTEMPTS c).errors = [] <;>
      simp [hp, he]
  · unfold publishContentRun
    rw [if_pos (by simp [hne])]

/-- C6 witness: the Publer path on the approved fixture leaves published_at
untouched while scheduling; the fan-out with a succeeding facebook call
stamps published_at at the transition to Published; a fan-out invoked on the
already-published result changes nothing. -/
theorem C6_published_at_witness :
    (publishApprovedContent (PublerOutcome.success [("facebook", "p1")])
        clientPub cFuture).publishedAt = cFuture.publishedAt ∧
    (publishContentRun allOkCall none cfgs3 MAX_RETRY_ATTEMPTS 77 c3plat).publishedAt =
        some 77 ∧
    (publishContentRun allOkCall none cfgs3 MAX_RETRY_ATTEMPTS 77 c3plat).status =
        ContentStatus.published ∧
    publishContentRun allOkCall none cfgs3 MAX_RETRY_ATTEMPTS 99
        (publishContentRun allOkCall none cfgs3 MAX_RETRY_ATTEMPTS 77 c3plat) =
      publishContentRun allOkCall none cfgs3 MAX_RETRY_ATTEMPTS 77 c3plat := by
  have h1 := C6_published_at (PublerOutcome.success [("facebook", "p1")]) clientPub
    allOkCall none cfgs3 77 c3plat
  have h2 := C6_published_at (PublerOutcome.success [("facebook", "p1")]) clientPub
    allOkCall none cfgs3 99
    (publishContentRun allOkCall none cfgs3 MAX_RETRY_ATTEMPTS 77 c3plat)
  refine ⟨h1.1, ((h1.2.1 rfl).1 (by decide)).1, ((h1.2.1 rfl).1 (by decide)).2,
    h2.2.2 (by decide)⟩

/-! ## C7: validation short-circuit on instagram -/

/-- C7 (confirmed): with no media, the per-platform step for an instagram
config records the validation error and returns without consulting the
platform oracle at all — the outcome is identical for every oracle, the
retry counter and the other platforms' accumulated results are untouched —
and in the spec scenario (facebook and instagram targeted, no media, facebook
succeeding) the content ends Published with platform_post_ids holding only
the facebook entry and error_message carrying the instagram validation
text. -/
theorem C7_validation_short_circuit :
    (∀ (call : String → Nat → Except String String) (st : FanState)
        (platforms : List String) (m : Nat) (cfg : PlatformConfig),
      cfg.platform = "instagram" → "instagram" ∈ platforms → 1 ≤ m →
      processConfig call [] platforms m st cfg =
        { st with errors := st.errors ++ [instagramMediaError] }) ∧
    publishContentRun partialCall none cfgsFbIg MAX_RETRY_ATTEMPTS 77 cFbIg =
      { cFbIg with status := ContentStatus.published,
                   platformPostIds := [("facebook", "fb_post_1")],
                   publishedAt := some 77,
                   errorMessage := some instagramMediaError } := by
  constructor
  · intro call st platforms m cfg hcfg hmem hm
    unfold processConfig
    rw [if_neg (by simp [hcfg, hmem]), if_pos (by simp [hcfg, hm])]
  · decide

/-- C7 witness: the general short-circuit instantiated at the instagram
config of the scenario, for an oracle that would fail every instagram call —
the oracle is never consulted. -/
theorem C7_validation_short_circuit_witness :
    processConfig (fun _ _ => Except.error "never called") []
        ["facebook", "instagram"] MAX_RETRY_ATTEMPTS
        { postIds := [("facebook", "fb_post_1")], errors := [], retryCount := 0 }
        { platform := "instagram", isActive := true } =
      { postIds := [("facebook", "fb_post_1")], errors := [instagramMediaError],
        retryCount := 0 } :=
  C7_validation_short_circuit.1 _ _ _ _ _ rfl (by decide) (by decide)

/-! ## C8: reject-with-feedback regeneration -/

/-- C8 counterexample.  The claim asserts that a Reject on PendingApproval
content with retry_count = 2 < max_retries = 3 is followed by regeneration,
ending in PendingApproval on generator success.  The route increments first
and then tests the incremented value against 3 (approval.py lines 74-78):
after the increment retry_count is 3, 3 < 3 fails, no regeneration is
triggered, and the content stays Rejected. -/
theorem C8_counterexample :
    cSalesy.status = ContentStatus.pendingApproval ∧
    cSalesy.retryCount = 2 ∧ cSalesy.retryCount < 3 ∧
    (rejectThenRegenerate genOkFix varsOkFix cSalesy (some "too salesy")).status =
      ContentStatus.rejected ∧
    (rejectThenRegenerate genOkFix varsOkFix cSalesy (some "too salesy")).status ≠
      ContentStatus.retrying ∧
    (rejectThenRegenerate genOkFix varsOkFix cSalesy (some "too salesy")).status ≠
      ContentStatus.pendingApproval := by
  decide

/-- C8 (amended): regeneration after a Reject fires only when the
post-increment retry_count is still below 3, i.e. when the content had
retry_count at most 1 before the Reject.  In that case the content passes
through Retrying, the generator is re-invoked with feedback notes that embed
the rejection reason verbatim, and the content ends in PendingApproval when
the generator (and the variations step) succeed, or in Failed with the error
recorded when the generator errors. -/
theorem C8_reject_regenerate (gen : String → Except String AiSocialPost)
    (vars : Except String (List (String × String))) (c : Content)
    (reason : Option String) (h : c.retryCount + 1 < 3) :
    rejectThenRegenerate gen vars c reason =
      regenerateRejectedContent gen vars (rejectContentStep c reason).1 ∧
    regenFeedback (rejectContentStep c reason).1 =
      (match c.notes with | some n => n | none => "") ++
        "\n\nPrevious attempt was rejected: " ++ pyOrElse reason "No reason provided" ++
        ". Try a different angle or tone." ∧
    (∀ r pv, gen (regenFeedback (rejectContentStep c reason).1) = Except.ok r →
      vars = Except.ok pv →
      (rejectThenRegenerate gen vars c reason).status = ContentStatus.pendingApproval) ∧
    (∀ e, gen (regenFeedback (rejectContentStep c reason).1) = Except.error e →
      (rejectThenRegenerate gen vars c reason).status = ContentStatus.failed ∧
      (rejectThenRegenerate gen vars c reason).errorMessage =
        some ("Regeneration failed: " ++ e)) := by
  have htrue : (rejectContentStep c reason).2 = true := by
    simp only [rejectContentStep, decide_eq_true_eq]
    exact h
  have hrun : rejectThenRegenerate gen vars c reason =
      regenerateRejectedContent gen vars (rejectContentStep c reason).1 := by
    simp only [rejectThenRegenerate, htrue, if_true]
  have hfeed : regenFeedback (regenMarkRetrying (rejectContentStep c reason).1) =
      regenFeedback (rejectContentStep c reason).1 := rfl
  refine ⟨hrun, rfl, fun r pv hg hv => ?_, fun e hg => ?_⟩
  · rw [hrun]
    unfold regenerateRejectedContent regenerateFrom
    rw [hfeed, hg]
    simp only [hv]
    split <;> rfl
  · rw [hrun]
    unfold regenerateRejectedContent regenerateFrom
    rw [hfeed, hg]
    exact ⟨rfl, rfl⟩

/-- C8 witness: rejecting the fixture at retry_count = 1 with the reason
string of the spec scenario regenerates and ends in PendingApproval, and the
feedback text handed to the generator embeds the reason. -/
theorem C8_reject_regenerate_witness :
    cSalesy.retryCount = 2 ∧ 1 + 1 < 3 ∧
    (rejectThenRegenerate genOkFix varsOkFix { cSalesy with retryCount := 1 }
        (some "too salesy")).status = ContentStatus.pendingApproval ∧
    regenFeedback (rejectContentStep { cSalesy with retryCount := 1 }
        (some "too salesy")).1 =
      "\n\nPrevious attempt was rejected: too salesy. Try a different angle or tone." := by
  have h := C8_reject_regenerate genOkFix varsOkFix { cSalesy with retryCount := 1 }
    (some "too salesy") (by decide)
  refine ⟨rfl, by decide, h.2.2.1 _ _ rfl rfl, by decide⟩

/-! ## C9: quota denial is a user-visible non-exceptional outcome -/

/-- C9 (confirmed): an active client whose posts_this_month has reached
monthly_post_limit has their submission answered with the QuotaExceeded
rejection — an ordinary return value mapped to an HTTP 400 with a
user-visible message, not a crash — and since the handler returns before the
Content constructor no Draft row is created and the client record is not
touched (the only client mutation of the flow lives in the generation task,
which is never enqueued for a denied submission). -/
theorem C9_quota_denied (client : Client) (form : IntakeForm) (imageTopic : String)
    (hact : client.isActive = true)
    (hq : client.monthlyPostLimit ≤ client.postsThisMonth) :
    submitIntakeWithToken (some client) form imageTopic =
      Except.error (IntakeError.quotaExceeded client.monthlyPostLimit) ∧
    intakeHttpStatus (IntakeError.quotaExceeded client.monthlyPostLimit) = 400 ∧
    intakeErrorDetail (IntakeError.quotaExceeded client.monthlyPostLimit) =
      "You have reached your monthly post limit of " ++
        toString client.monthlyPostLimit ++ " posts. Please upgrade your plan." := by
  refine ⟨?_, rfl, rfl⟩
  simp [submitIntakeWithToken, hact, hq]

/-- C9 witness: the client fixture at the spec limit of 1 post with 1 already
used is denied with the 400 QuotaExceeded outcome. -/
theorem C9_quota_denied_witness :
    submitIntakeWithToken
        (some { clientPub with monthlyPostLimit := 1, postsThisMonth := 1 })
        formFix "analyzed topic" =
      Except.error (IntakeError.quotaExceeded 1) ∧
    intakeHttpStatus (IntakeError.quotaExceeded 1) = 400 := by
  have h := C9_quota_denied { clientPub with monthlyPostLimit := 1, postsThisMonth := 1 }
    formFix "analyzed topic" rfl (by decide)
  exact ⟨h.1, h.2.1⟩

/-! ## C10: partially-failed publishes are never recycled -/

/-- C10 (confirmed): a fan-out run over APPROVED content that left any error
— a platform that exhausted its retries or failed validation — writes the
joined error text into error_message; the recycling query selects only
content with error_message NULL, so the resulting content, Published or not,
is never picked up by any recycling sweep at any cutoff: only fully
successful publishes are ever recycled. -/
theorem C10_partial_never_recycled (call : String → Nat → Except String String)
    (placid : Option String) (configs : List PlatformConfig) (now : Int)
    (cutoff : Int) (client : Client) (c : Content)
    (happ : c.status = ContentStatus.approved)
    (herr : (fanState call placid configs MAX_RETRY_ATTEMPTS c).errors ≠ []) :
    (publishContentRun call placid configs MAX_RETRY_ATTEMPTS now c).errorMessage =
      some (String.intercalate "; "
        (fanState call placid configs MAX_RETRY_ATTEMPTS c).errors) ∧
    isRecyclableAt cutoff client
      (publishContentRun call placid configs MAX_RETRY_ATTEMPTS now c) = false := by
  have hmsg : (publishContentRun call placid configs MAX_RETRY_ATTEMPTS now c).errorMessage =
      some (String.intercalate "; "
        (fanState call placid configs MAX_RETRY_ATTEMPTS c).errors) := by
    unfold publishContentRun
    rw [if_neg (by simp [happ])]
    by_cases hp : (fanState call placid configs MAX_RETRY_ATTEMPTS c).postIds = [] <;>
      simp [hp, herr]
  refine ⟨hmsg, ?_⟩
  unfold isRecyclableAt
  rw [hmsg]
  simp

/-- C10 witness: the partial-success scenario run — facebook succeeded, two
platforms failed — is Published with error_message set and is not recyclable
even once its published_at is past the cutoff. -/
theorem C10_partial_never_recycled_witness :
    (publishContentRun partialCall none cfgs3 MAX_RETRY_ATTEMPTS 10 c3plat).status =
      ContentStatus.published ∧
    (publishContentRun partialCall none cfgs3 MAX_RETRY_ATTEMPTS 10 c3plat).errorMessage =
      some (String.intercalate "; "
        (fanState partialCall none cfgs3 MAX_RETRY_ATTEMPTS c3plat).errors) ∧
    isRecyclableAt 1000 clientPub
      (publishContentRun partialCall none cfgs3 MAX_RETRY_ATTEMPTS 10 c3plat) = false := by
  have h := C10_partial_never_recycled partialCall none cfgs3 10 1000 clientPub c3plat
    rfl (by decide)
  exact ⟨by decide, h.1, h.2⟩

end SocialMedia
